import Mathlib

/-!
Shallow embedding of `pybodytrack/BodyTracking.py` (class `BodyTracking`),
restricted to the parts the verified properties concern: the aggregator
methods (`movement_per_second`, `movement_per_frame`, `movement_per_landmark`,
`normalized_movement_index`, `filter_interval`), the time-window setter
`set_times`, and the video-source dispatch of `__init__`.

Modelling conventions:
- Python numbers (timestamps, movement totals, second offsets) are modelled
  as exact rationals `ℚ`; landmark counts as `ℤ`.
- The accumulated pandas DataFrame (`self.getData()`) is modelled as a
  `List Row`: one `Row` per processed frame, carrying its `timestamp`
  (first column) and the remaining per-landmark coordinate columns.
- A method that can raise (IndexError from `timestamps[-1]` or
  `df.iloc[0]` on an empty DataFrame) returns `Option`; `none` models the
  raised exception, `some v` a normal return of `v`.
-/

namespace PyBodyTrack

/-- One row of the accumulated landmark DataFrame: the `timestamp` column
(seconds, Unix-epoch-like) followed by the per-landmark coordinate columns. -/
structure Row where
  timestamp : ℚ
  coords : List ℚ
deriving DecidableEq, Repr

/-- `timestamps[0]` of the DataFrame (first row's timestamp); the `0` default
is never reached by the embedded methods, which test emptiness first. -/
def firstTs : List Row → ℚ
  | [] => 0
  | r :: _ => r.timestamp

/-- `timestamps[-1]` of the DataFrame (last row's timestamp); the `0` default
is never reached by the embedded methods, which test emptiness first. -/
def lastTs : List Row → ℚ
  | [] => 0
  | [r] => r.timestamp
  | _ :: r :: rs => lastTs (r :: rs)

/-- `BodyTracking.movement_per_second(total_movement)`:
`timestamps = self.getData().iloc[:, 0].values; duration = timestamps[-1] -
timestamps[0]; if duration <= 0: return 0.0; return total_movement / duration`.
On an empty DataFrame `timestamps[-1]` raises IndexError (`none`). -/
def movement_per_second (df : List Row) (total_movement : ℚ) : Option ℚ :=
  if df = [] then none
  else if lastTs df - firstTs df ≤ 0 then some 0
  else some (total_movement / (lastTs df - firstTs df))

/-- `BodyTracking.movement_per_frame(total_movement)`:
`n_frames = len(self.getData()); if n_frames <= 1: return 0.0;
return total_movement / (n_frames - 1)`. Total on every input. -/
def movement_per_frame (df : List Row) (total_movement : ℚ) : ℚ :=
  if df.length ≤ 1 then 0 else total_movement / ((df.length : ℚ) - 1)

/-- `BodyTracking.movement_per_landmark(total_movement, num_landmarks)`:
`if num_landmarks <= 0: return 0.0; return total_movement / num_landmarks`.
The method receives `self` (whose state `df` models) but never reads it. -/
def movement_per_landmark (df : List Row) (total_movement : ℚ)
    (num_landmarks : ℤ) : ℚ :=
  if num_landmarks ≤ 0 then 0 else total_movement / (num_landmarks : ℚ)

/-- `BodyTracking.normalized_movement_index(total_movement, num_landmarks)`:
`duration = timestamps[-1] - timestamps[0]; if duration <= 0 or
num_landmarks <= 0: return 0.0; return total_movement / (duration *
num_landmarks)`. On an empty DataFrame `timestamps[-1]` raises (`none`). -/
def normalized_movement_index (df : List Row) (total_movement : ℚ)
    (num_landmarks : ℤ) : Option ℚ :=
  if df = [] then none
  else if lastTs df - firstTs df ≤ 0 ∨ num_landmarks ≤ 0 then some 0
  else some (total_movement / ((lastTs df - firstTs df) * (num_landmarks : ℚ)))

/-- `BodyTracking.filter_interval(start_sec, end_sec)`:
`t0 = df.iloc[0]['timestamp']; return df[(df['timestamp'] >= t0 + start_sec)
& (df['timestamp'] <= t0 + end_sec)]`. On an empty DataFrame `df.iloc[0]`
raises IndexError (`none`); otherwise rows are kept in order. -/
def filter_interval (df : List Row) (start_sec end_sec : ℚ) :
    Option (List Row) :=
  if df = [] then none
  else some (df.filter fun r =>
    decide (firstTs df + start_sec ≤ r.timestamp) &&
    decide (r.timestamp ≤ firstTs df + end_sec))

/-- The spec's notion of non-decreasing capture timestamps: every earlier
row's timestamp is `≤` every later row's. -/
def TimestampsSorted (df : List Row) : Prop :=
  df.Pairwise fun a b => a.timestamp ≤ b.timestamp

instance (df : List Row) : Decidable (TimestampsSorted df) := by
  unfold TimestampsSorted; infer_instance

/-- A `mode` argument as Python receives it: one of the two `VideoMode` enum
members, or any other runtime value (`other`), which compares unequal to
both. -/
inductive ModeVal
  | camera
  | video
  | other (tag : Nat)
deriving DecidableEq, Repr

/-- The video-source dispatch at the end of `BodyTracking.__init__`
(`if self.mode == VideoMode.CAMERA: ... self.fps = 30; elif self.mode ==
VideoMode.VIDEO: self.fps = cap.get(CAP_PROP_FPS); if self.fps == 0:
self.fps = 30; else: raise ValueError(...)`). `videoFileFps` is the FPS the
opened file reports; the result is the configured `self.fps`, or the
`ValueError` message. -/
def initVideoSource (mode : ModeVal) (videoFileFps : ℚ) : Except String ℚ :=
  if mode = ModeVal.camera then Except.ok 30
  else if mode = ModeVal.video then
    Except.ok (if videoFileFps = 0 then 30 else videoFileFps)
  else
    Except.error "Invalid mode selected. Use 0 for camera or 1 for video file."

/-- The observable outcome of `BodyTracking.set_times(startsec, endsec)`:
the resulting `self.starttime` / `self.endtime`, whether the warning
`"End time must be greater than start time"` was printed, and the
millisecond position passed to `cap.set(CAP_PROP_POS_MSEC, ...)` if a seek
was issued. -/
structure SetTimesResult where
  starttime : Option ℚ
  endtime : Option ℚ
  warned : Bool
  seek : Option ℚ
deriving DecidableEq, Repr

/-- `BodyTracking.set_times(startsec, endsec)`: only acts in VIDEO mode; if
`endsec > startsec` it stores both bounds and seeks the capture to
`startsec * 1000` msec, otherwise it prints the warning and changes nothing;
in any other mode it does nothing at all. -/
def set_times (mode : ModeVal) (starttime endtime : Option ℚ)
    (startsec endsec : ℚ) : SetTimesResult :=
  if mode = ModeVal.video then
    if startsec < endsec then
      { starttime := some startsec, endtime := some endsec,
        warned := false, seek := some (startsec * 1000) }
    else
      { starttime := starttime, endtime := endtime,
        warned := true, seek := none }
  else
    { starttime := starttime, endtime := endtime,
      warned := false, seek := none }

/-- Every row of a timestamp-sorted DataFrame has timestamp at most the last
row's. -/
lemma timestamp_le_lastTs : ∀ {df : List Row}, TimestampsSorted df →
    ∀ r ∈ df, r.timestamp ≤ lastTs df := by
  intro df
  induction df with
  | nil => intro _ r hr; cases hr
  | cons a tl ih =>
    intro hs r hr
    cases tl with
    | nil =>
      have hra : r = a := by simpa using hr
      subst hra
      simp [lastTs]
    | cons b tl' =>
      have hpair := (List.pairwise_cons.mp hs).1
      have htail : TimestampsSorted (b :: tl') := (List.pairwise_cons.mp hs).2
      have hlast : lastTs (a :: b :: tl') = lastTs (b :: tl') := rfl
      rw [hlast]
      rcases List.mem_cons.mp hr with heq | hr'
      · subst heq
        exact le_trans (hpair b (List.mem_cons_self b tl'))
          (ih htail b (List.mem_cons_self b tl'))
      · exact ih htail r hr'

/-- Every row of a timestamp-sorted DataFrame has timestamp at least the
first row's. -/
lemma firstTs_le_timestamp {df : List Row} (hs : TimestampsSorted df)
    {r : Row} (hr : r ∈ df) : firstTs df ≤ r.timestamp := by
  cases df with
  | nil => cases hr
  | cons a tl =>
    rcases List.mem_cons.mp hr with heq | hr'
    · subst heq; simp [firstTs]
    · exact (List.pairwise_cons.mp hs).1 r hr'

/-- The spec's running example series: timestamps 0, 1, 2 with a single
coordinate column 0, 1, 4. -/
def exampleSeries : List Row :=
  [⟨0, [0]⟩, ⟨1, [1]⟩, ⟨2, [4]⟩]

/-- A one-row series with timestamp 0, used as a degenerate-boundary input. -/
def singleRowSeries : List Row := [⟨0, [0]⟩]

/-- C1, counterexample: on an empty TimeSeries, `movement_per_second`,
`normalized_movement_index` and `filter_interval` do not return a defined
zero — they raise IndexError (modelled as `none`), refuting the claim that
every aggregator function never raises on every input including an empty
series. -/
theorem C1_counterexample :
    movement_per_second [] 6 = none ∧
    normalized_movement_index [] 6 2 = none ∧
    filter_interval [] 0 1 = none := by
  refine ⟨rfl, rfl, rfl⟩

/-- C1, amended: `movement_per_frame` and `movement_per_landmark` are total
on every input (returning 0 on degenerate ones), and `movement_per_second`,
`normalized_movement_index` and `filter_interval` return a defined value on
every non-empty series — but all three raise IndexError on an empty
series. -/
theorem C1_total_amended (df : List Row) (total s e : ℚ) (n : ℤ)
    (h : df ≠ []) :
    (∃ q, movement_per_second df total = some q) ∧
    (∃ q, normalized_movement_index df total n = some q) ∧
    (∃ l, filter_interval df s e = some l) ∧
    movement_per_frame [] total = 0 ∧
    movement_per_landmark [] total 0 = 0 := by
  refine ⟨?_, ?_, ?_, rfl, rfl⟩
  · unfold movement_per_second
    rw [if_neg h]
    by_cases hd : lastTs df - firstTs df ≤ 0
    · exact ⟨0, by rw [if_pos hd]⟩
    · exact ⟨_, by rw [if_neg hd]⟩
  · unfold normalized_movement_index
    rw [if_neg h]
    by_cases hd : lastTs df - firstTs df ≤ 0 ∨ n ≤ 0
    · exact ⟨0, by rw [if_pos hd]⟩
    · exact ⟨_, by rw [if_neg hd]⟩
  · unfold filter_interval
    rw [if_neg h]
    exact ⟨_, rfl⟩

/-- C1, witness for the amended theorem at the one-row series. -/
theorem C1_witness :
    (singleRowSeries ≠ [] ) ∧
    ((∃ q, movement_per_second singleRowSeries 6 = some q) ∧
     (∃ q, normalized_movement_index singleRowSeries 6 2 = some q) ∧
     (∃ l, filter_interval singleRowSeries 0 1 = some l) ∧
     movement_per_frame [] 6 = 0 ∧
     movement_per_landmark [] 6 0 = 0) :=
  ⟨by decide, C1_total_amended singleRowSeries 6 0 1 2 (by decide)⟩

/-- C2: for a series with at least 2 rows, `movement_per_frame` is the exact
algebraic inverse of multiplication by `row_count - 1`:
`movement_per_frame(total) * (row_count - 1) = total`. -/
theorem C2_movement_per_frame_inverse (df : List Row) (total : ℚ)
    (h : 2 ≤ df.length) :
    movement_per_frame df total * ((df.length - 1 : ℕ) : ℚ) = total := by
  unfold movement_per_frame
  rw [if_neg (by omega)]
  have h3 : 1 ≤ df.length := by omega
  rw [Nat.cast_sub h3, Nat.cast_one]
  have h2 : (df.length : ℚ) - 1 ≠ 0 := by
    have h4 : (2 : ℚ) ≤ (df.length : ℚ) := by exact_mod_cast h
    linarith
  field_simp

/-- C2, witness at the 3-row example series with total movement 6. -/
theorem C2_witness :
    (2 ≤ exampleSeries.length) ∧
    movement_per_frame exampleSeries 6 *
      ((exampleSeries.length - 1 : ℕ) : ℚ) = 6 :=
  ⟨by decide, C2_movement_per_frame_inverse exampleSeries 6 (by decide)⟩

/-- C3: at their degenerate boundaries each aggregator returns exactly 0:
`movement_per_second` when the duration is `≤ 0`, `movement_per_landmark`
when `num_landmarks ≤ 0`, and `normalized_movement_index` when the duration
is `≤ 0` or `num_landmarks ≤ 0`, for every total movement value. -/
theorem C3_degenerate_zero (df : List Row) (total : ℚ) (n : ℤ)
    (h : df ≠ []) :
    (lastTs df - firstTs df ≤ 0 → movement_per_second df total = some 0) ∧
    (n ≤ 0 → movement_per_landmark df total n = 0) ∧
    (lastTs df - firstTs df ≤ 0 ∨ n ≤ 0 →
      normalized_movement_index df total n = some 0) := by
  refine ⟨fun hd => ?_, fun hn => ?_, fun hdn => ?_⟩
  · unfold movement_per_second
    rw [if_neg h, if_pos hd]
  · unfold movement_per_landmark
    rw [if_pos hn]
  · unfold normalized_movement_index
    rw [if_neg h, if_pos hdn]

/-- C3, witness at the one-row series (duration 0) with 0 landmarks. -/
theorem C3_witness :
    (singleRowSeries ≠ []) ∧
    movement_per_second singleRowSeries 6 = some 0 ∧
    movement_per_landmark singleRowSeries 6 0 = 0 ∧
    normalized_movement_index singleRowSeries 6 0 = some 0 := by
  have h := C3_degenerate_zero singleRowSeries 6 0 (by decide)
  exact ⟨by decide,
    h.1 (by norm_num [lastTs, firstTs, singleRowSeries]),
    h.2.1 (by decide),
    h.2.2 (Or.inl (by norm_num [lastTs, firstTs, singleRowSeries]))⟩

/-- C4: on a non-empty series with non-decreasing timestamps,
`filter_interval 0 e` with `e` at least the full duration returns the whole
series unchanged, every row kept in order. -/
theorem C4_filter_interval_full (df : List Row) (h : df ≠ [])
    (hs : TimestampsSorted df) (e : ℚ)
    (he : lastTs df - firstTs df ≤ e) :
    filter_interval df 0 e = some df := by
  unfold filter_interval
  rw [if_neg h]
  congr 1
  apply List.filter_eq_self.mpr
  intro r hr
  simp only [Bool.and_eq_true, decide_eq_true_eq]
  constructor
  · have h1 := firstTs_le_timestamp hs hr
    linarith
  · have h2 := timestamp_le_lastTs hs r hr
    linarith

/-- C4, witness at the 3-row example series with end offset 2 = its
duration. -/
theorem C4_witness :
    (exampleSeries ≠ [] ∧ TimestampsSorted exampleSeries ∧
     lastTs exampleSeries - firstTs exampleSeries ≤ 2) ∧
    filter_interval exampleSeries 0 2 = some exampleSeries :=
  ⟨⟨by decide, by decide, by norm_num [lastTs, firstTs, exampleSeries]⟩,
   C4_filter_interval_full exampleSeries (by decide) (by decide) 2
     (by norm_num [lastTs, firstTs, exampleSeries])⟩

/-- C5: on a non-empty series, `filter_interval a b` with `a > b` keeps no
row: no timestamp is both `≥ t0 + a` and `≤ t0 + b`. -/
theorem C5_filter_interval_empty (df : List Row) (h : df ≠ []) (a b : ℚ)
    (hab : b < a) : filter_interval df a b = some [] := by
  unfold filter_interval
  rw [if_neg h]
  congr 1
  apply List.filter_eq_nil_iff.mpr
  intro r hr
  simp only [Bool.and_eq_true, decide_eq_true_eq, not_and]
  intro h1 h2
  linarith

/-- C5, witness at the 3-row example series with offsets 5 > 1. -/
theorem C5_witness :
    (exampleSeries ≠ [] ∧ (1 : ℚ) < 5) ∧
    filter_interval exampleSeries 5 1 = some [] :=
  ⟨⟨by decide, by norm_num⟩,
   C5_filter_interval_empty exampleSeries (by decide) 5 1 (by norm_num)⟩

/-- C6: on the series [(t=0,x=0),(t=1,x=1),(t=2,x=4)] with total movement 6:
movement per second is 3, movement per frame is 3, movement per landmark
with 2 landmarks is 3, and the normalized movement index with 2 landmarks
is 3/2 = 1.5. -/
theorem C6_example_values :
    movement_per_second exampleSeries 6 = some 3 ∧
    movement_per_frame exampleSeries 6 = 3 ∧
    movement_per_landmark exampleSeries 6 2 = 3 ∧
    normalized_movement_index exampleSeries 6 2 = some (3 / 2) := by
  refine ⟨?_, ?_, ?_, ?_⟩ <;>
    norm_num [movement_per_second, movement_per_frame,
      movement_per_landmark, normalized_movement_index,
      exampleSeries, lastTs, firstTs] <;>
    exact fun hx => absurd hx (List.cons_ne_nil _ _)

/-- C7: constructing `BodyTracking` with a mode that is neither
`VideoMode.CAMERA` nor `VideoMode.VIDEO` raises
`ValueError("Invalid mode selected. ...")`, whatever the other
configuration, so construction aborts. -/
theorem C7_invalid_mode_raises (tag : Nat) (fps : ℚ) :
    initVideoSource (ModeVal.other tag) fps =
      Except.error
        "Invalid mode selected. Use 0 for camera or 1 for video file." := by
  unfold initVideoSource
  simp

/-- C8: `set_times(startsec, endsec)` in VIDEO mode with `endsec ≤ startsec`
does not raise, prints the warning, and leaves `starttime`, `endtime`
unchanged (and issues no seek). -/
theorem C8_set_times_rejects_bad_window (st et : Option ℚ)
    (startsec endsec : ℚ) (h : endsec ≤ startsec) :
    set_times ModeVal.video st et startsec endsec =
      { starttime := st, endtime := et, warned := true, seek := none } := by
  unfold set_times
  rw [if_pos rfl, if_neg (not_lt.mpr h)]

/-- C8, witness: a previously configured window (1, 2) survives
`set_times(5, 3)`. -/
theorem C8_witness :
    ((3 : ℚ) ≤ 5) ∧
    set_times ModeVal.video (some 1) (some 2) 5 3 =
      { starttime := some 1, endtime := some 2,
        warned := true, seek := none } :=
  ⟨by norm_num,
   C8_set_times_rejects_bad_window (some 1) (some 2) 5 3 (by norm_num)⟩

/-- C9: `set_times` with any arguments in CAMERA mode is a silent no-op:
`starttime` and `endtime` keep their previous values, no warning is
printed, and no seek is issued. -/
theorem C9_set_times_camera_noop (st et : Option ℚ) (a b : ℚ) :
    set_times ModeVal.camera st et a b =
      { starttime := st, endtime := et, warned := false, seek := none } := by
  unfold set_times
  rw [if_neg (by simp)]

/-- C10: `movement_per_landmark` depends only on its two arguments — two
`BodyTracking` states holding arbitrarily different TimeSeries contents
give the same result on equal arguments, i.e. the method never reads the
accumulated series. -/
theorem C10_movement_per_landmark_state_independent
    (df₁ df₂ : List Row) (total : ℚ) (n : ℤ) :
    movement_per_landmark df₁ total n = movement_per_landmark df₂ total n :=
  rfl

end PyBodyTrack
